/-
Verification of the CUDA filtered back-projection (FBP) algorithm facade of the
ASTRA toolbox, `include/astra/CudaFilteredBackProjectionAlgorithm.h`.

Only the class header is present in the repository snapshot; the member
implementations (filter generation, the FFT-based filtering stage, the
back-projection pipeline, the configuration facade) live in translation units
that are not part of `src/`. Following the specification document, those
missing parts are modelled here as explicit Lean definitions, each marked
`Modelled from the spec:` in its doc comment. The header itself contributes
the signatures and the inline body of `description`.

Floating-point sample values are idealized as complex numbers (for the
transform-domain filtering stage) and as rationals (for filter kernel weights).
-/
import Mathlib

open Finset

namespace AstraFBP

/-! ### Filter-width computations

`calcIdealRealFilterWidth` and `calcIdealFourierFilterWidth` are declared at
lines 68-69 of the header; their bodies are in the missing translation unit. -/

/-- Modelled from the spec: the missing helper `calcNextPowerOfTwo` (smallest
power of two that is at least `n`), used by the ideal-width computations to
pick a padded transform length "power-of-two-or-similar". -/
def calcNextPowerOfTwo (n : ℕ) : ℕ := 2 ^ Nat.clog 2 n

/-- Modelled from the spec: `idealWidthForLinearFilter(detectorCount)` -
the smallest power-of-two length sufficient to avoid circular-convolution
wraparound when filtering a row of `detectorCount` samples in the spatial
domain, i.e. the next power of two above twice the detector count. -/
def calcIdealRealFilterWidth (detectorCount : ℕ) : ℕ :=
  calcNextPowerOfTwo (2 * detectorCount)

/-- Modelled from the spec: `idealWidthForFrequencyFilter(detectorCount)` -
the corresponding length in the conjugate-symmetric packed frequency-domain
representation produced by a real-to-complex transform: a real signal of
padded length `L` packs into `L / 2 + 1` independent frequency bins. -/
def calcIdealFourierFilterWidth (detectorCount : ℕ) : ℕ :=
  calcIdealRealFilterWidth detectorCount / 2 + 1

/-! ### Filter families and the error taxonomy -/

/-- Modelled from the spec: the closed enumeration of filter families
(`E_FBPFILTER`, declared in the missing `cuda/2d/astra.h`), including the
"unrecognized filter" sentinel returned by the catalog lookup. -/
inductive E_FBPFILTER where
  | FILTER_NONE
  | FILTER_RAMLAK
  | FILTER_SHEPPLOGAN
  | FILTER_COSINE
  | FILTER_HAMMING
  | FILTER_HANN
  | FILTER_CUSTOM
  | FILTER_PROJECTION
  | FILTER_SINOGRAM
  | FILTER_ERROR
deriving DecidableEq, Repr

/-- Modelled from the spec: the error taxonomy of section 7. -/
inductive AstraError where
  | ConfigurationError
  | GeometryMismatchError
  | DeviceError
  | FilterParameterError
deriving DecidableEq, Repr

/-! ### Filter kernel generation -/

/-- Relative frequency of bin `i` in a packed frequency kernel of `Wf` bins:
bin `Wf - 1` is the Nyquist frequency, so bin `i` sits at fraction
`i / (Wf - 1)` of Nyquist. -/
def relFreq (Wf : ℕ) (i : ℕ) : ℚ := (i : ℚ) / ((Wf : ℚ) - 1)

/-- Modelled from the spec: the Ram-Lak (ramp) frequency kernel with cutoff.
The base ramp is the absolute frequency; the cutoff `D` zeroes all frequency
content above `D` times Nyquist. Bin `i` of a `Wf`-bin packed kernel. -/
def genFilterRamLak (Wf : ℕ) (D : ℚ) (i : ℕ) : ℚ :=
  if relFreq Wf i ≤ D then relFreq Wf i else 0

/-- Modelled from the spec: the diagnostic entry point `testGenFilter`
(header line 72) restricted to the Ram-Lak family: built-in families are
angle-independent and broadcast one kernel to all `projectionCount` angles. -/
def testGenFilterRamLak (D : ℚ) (projectionCount : ℕ) (Wf : ℕ) :
    Fin projectionCount → ℕ → ℚ :=
  fun _ i => genFilterRamLak Wf D i

/-- Index folding of the conjugate-symmetric packed representation: bin `k` of
a full-width transform of length `W` carries the frequency of packed bin
`min k (W - k)`. -/
def symIndex (W : ℕ) (k : ZMod W) [NeZero W] : ℕ :=
  min (ZMod.val k) (W - ZMod.val k)

/-- Modelled from the spec: the Ram-Lak kernel expanded to all `W` bins of a
full-width transform via conjugate symmetry, as complex weights. -/
noncomputable def ramLakKernel (W : ℕ) [NeZero W] (D : ℚ) : ZMod W → ℂ :=
  fun k => ((genFilterRamLak (W / 2 + 1) D (symIndex W k) : ℚ) : ℂ)

/-! ### The frequency-domain filtering stage -/

/-- Modelled from the spec: zero-padding of a `n`-sample projection row to the
padded transform length `W` before the frequency-domain transform. -/
def padRow (n W : ℕ) [NeZero W] (row : Fin n → ℂ) : ZMod W → ℂ :=
  fun k => if h : ZMod.val k < n then row ⟨ZMod.val k, h⟩ else 0

/-- Modelled from the spec, section 4.4 step 3: transform the spatial-domain
row to the frequency domain, multiply element-wise by the kernel weights,
inverse-transform, and keep the leading `n` samples (discarding the padding
residue). The discrete transform pair is idealized by the exact DFT on
`ZMod W → ℂ`. -/
noncomputable def filterRow (n W : ℕ) [NeZero W] (kernel : ZMod W → ℂ)
    (row : Fin n → ℂ) : Fin n → ℂ :=
  fun i =>
    ZMod.dft.symm (fun k => kernel k * ZMod.dft (padRow n W row) k) ((i : ℕ) : ZMod W)

/-! ### Back-projection and the pipeline -/

/-- Modelled from the spec, section 4.4 steps 4-5: for each output pixel,
accumulate a weighted sum over all projection angles of the (filtered) row
value at the detector position the pixel maps to under the opaque scan
geometry, averaging `ss * ss` sub-sample positions per pixel, and scale by a
geometry-derived normalization factor. The geometry is a parameter (weights
`wgt` and detector-position map `pos`), not hard-coded. -/
noncomputable def backProject {P : Type} (A n ss : ℕ) (scale : ℂ)
    (wgt : P → Fin A → ℂ) (pos : P → Fin ss × Fin ss → Fin A → Fin n)
    (sino : Fin A → Fin n → ℂ) : P → ℂ :=
  fun p => scale * (((ss : ℂ) * (ss : ℂ))⁻¹ *
    ∑ sub : Fin ss × Fin ss, ∑ a : Fin A, wgt p a * sino a (pos p sub a))

/-- Modelled from the spec, section 4.4 step 2: resolve the effective filter
kernel and run the stages. If the family is `FILTER_NONE`, the filtering stage
is skipped entirely and the raw sinogram is back-projected; otherwise every
projection row passes through the frequency-domain filtering stage with the
effective kernel (generated for built-in families, caller-supplied for
`FILTER_CUSTOM`) before back-projection. -/
noncomputable def runPipeline {P : Type} (A n W ss : ℕ) [NeZero W]
    (family : E_FBPFILTER) (kernel : ZMod W → ℂ) (scale : ℂ)
    (wgt : P → Fin A → ℂ) (pos : P → Fin ss × Fin ss → Fin A → Fin n)
    (sino : Fin A → Fin n → ℂ) : P → ℂ :=
  match family with
  | .FILTER_NONE => backProject A n ss scale wgt pos sino
  | _ => backProject A n ss scale wgt pos (fun a => filterRow n W kernel (sino a))

/-! ### The algorithm facade -/

/-- Modelled from the spec: the configuration structure consumed by
`initialize(config)` (recognized keys of section 6; the sinogram and volume
bindings are abstracted to presence flags, since the containers are opaque
external collaborators). -/
structure Config where
  filterType : String
  filterWidth : ℕ
  filterParameter : ℚ
  filterD : ℚ
  gpuIndex : ℤ
  pixelSuperSampling : ℕ
  hasSinogram : Bool
  hasReconstruction : Bool

/-- Modelled from the spec: the per-instance state of
`CCudaFilteredBackProjectionAlgorithm` relevant to the claims: the
"pipeline initialized" flag gating `run`, and the stored filter fields. -/
structure AlgState where
  initialized : Bool
  eFilter : E_FBPFILTER
  filterWidth : ℕ
  filterD : ℚ
  filterParameter : ℚ
  gpuIndex : ℤ
  pixelSuperSampling : ℕ
deriving DecidableEq, Repr

/-- The state of a fresh or torn-down instance: not runnable. -/
def uninitState : AlgState :=
  { initialized := false, eFilter := .FILTER_ERROR, filterWidth := 0,
    filterD := 1, filterParameter := -1, gpuIndex := -1, pixelSuperSampling := 1 }

/-- Modelled from the spec: the filter catalog, a pure association list from
case-sensitive textual tokens to filter families (the exact token spellings
live in the missing translation unit; the claims quantify over tokens outside
the catalog, so only closedness of the list matters). -/
def filterCatalog : List (String × E_FBPFILTER) :=
  [("none", .FILTER_NONE), ("ram-lak", .FILTER_RAMLAK),
   ("shepp-logan", .FILTER_SHEPPLOGAN), ("cosine", .FILTER_COSINE),
   ("hamming", .FILTER_HAMMING), ("hann", .FILTER_HANN),
   ("projection", .FILTER_PROJECTION), ("sinogram", .FILTER_SINOGRAM)]

/-- Modelled from the spec: `_convertStringToFilter` (header line 57) looks the
token up in the catalog and returns the `FILTER_ERROR` sentinel for unknown
tokens; no silent default. -/
def _convertStringToFilter (s : String) : E_FBPFILTER :=
  match filterCatalog.find? (fun p => p.1 = s) with
  | some p => p.2
  | none => .FILTER_ERROR

/-- Modelled from the spec: `initialize(config)` (header line 64). Missing
data bindings or an unrecognized filter token fail with a configuration error
and leave the instance not runnable; on success the parsed filter
specification is stored and the instance becomes runnable. -/
def initializeCfg (cfg : Config) : AlgState × Option AstraError :=
  if cfg.hasSinogram = false ∨ cfg.hasReconstruction = false then
    (uninitState, some .ConfigurationError)
  else
    let f := _convertStringToFilter cfg.filterType
    if f = .FILTER_ERROR then (uninitState, some .ConfigurationError)
    else
      ({ initialized := true, eFilter := f, filterWidth := cfg.filterWidth,
         filterD := cfg.filterD, filterParameter := cfg.filterParameter,
         gpuIndex := cfg.gpuIndex, pixelSuperSampling := cfg.pixelSuperSampling },
       none)

/-- Modelled from the spec: the direct-parameter `initialize` overload (header
line 65). A caller-supplied custom kernel whose declared width is smaller than
the ideal frequency-domain width for the detector count is rejected with a
filter-parameter error, never auto-resized; otherwise the supplied width is
stored unchanged (or the ideal width is derived when no custom kernel is
given). -/
def initializeDirect (detectorCount : ℕ) (eFilter : E_FBPFILTER)
    (customKernel : Option (List ℚ)) (filterWidth : ℕ) (gpuIndex : ℤ)
    (filterParameter : ℚ) : AlgState × Option AstraError :=
  if eFilter = .FILTER_ERROR then (uninitState, some .ConfigurationError)
  else
    match customKernel with
    | some _ =>
        if filterWidth < calcIdealFourierFilterWidth detectorCount then
          (uninitState, some .FilterParameterError)
        else
          ({ initialized := true, eFilter := eFilter, filterWidth := filterWidth,
             filterD := 1, filterParameter := filterParameter,
             gpuIndex := gpuIndex, pixelSuperSampling := 1 }, none)
    | none =>
        ({ initialized := true, eFilter := eFilter,
           filterWidth := calcIdealFourierFilterWidth detectorCount,
           filterD := 1, filterParameter := filterParameter,
           gpuIndex := gpuIndex, pixelSuperSampling := 1 }, none)

/-- Modelled from the spec: `check` (header line 82) reports whether the
facade is in a runnable state, i.e. whether initialization succeeded. -/
def check (s : AlgState) : Bool := s.initialized

/-- Modelled from the spec: `run(iterations)` (header line 66). FBP is a
single analytic pass; the `iterations` argument exists only to satisfy the
shared reconstruction-algorithm interface and is ignored: the pipeline is
invoked exactly once. -/
noncomputable def run {P : Type} (A n W ss : ℕ) [NeZero W] (s : AlgState)
    (kernel : ZMod W → ℂ) (scale : ℂ) (wgt : P → Fin A → ℂ)
    (pos : P → Fin ss × Fin ss → Fin A → Fin n)
    (sino : Fin A → Fin n → ℂ) (_iterations : ℤ) : P → ℂ :=
  runPipeline A n W ss s.eFilter kernel scale wgt pos sino

/-! ### GPU device query -/

/-- Modelled from the spec: the raw driver device-count query, which reports a
device error (rather than a count) when no compute device is present. The
machine is abstracted as the list of its devices. -/
def cudaGetDeviceCount {Device : Type} (devices : List Device) :
    Except AstraError ℕ :=
  if devices.isEmpty then .error .DeviceError else .ok devices.length

/-- Modelled from the spec: `getGPUCount` (header line 73) wraps the driver
query and never fails: a "no device" report becomes the valid answer 0. -/
def getGPUCount {Device : Type} (devices : List Device) : ℕ :=
  match cudaGetDeviceCount devices with
  | .ok c => c
  | .error _ => 0

/-! ### Class identification -/

/-- The static `type` string of the class (header line 44; its value is set in
the missing translation unit, modelled here as the registered algorithm
name). -/
def type : String := "FBP_CUDA"

/-- The inline body of `description` from the header (line 90): it returns the
static `type` string and touches no per-instance state; the instance argument
is unused. -/
def description (_s : AlgState) : String := type

/-- A successfully initialized instance state with the Ram-Lak family, used to
exercise `run`. -/
def ramlakState : AlgState :=
  { uninitState with initialized := true, eFilter := .FILTER_RAMLAK }

instance : NeZero (calcIdealRealFilterWidth 128) :=
  ⟨by
    unfold calcIdealRealFilterWidth calcNextPowerOfTwo
    positivity⟩

lemma calcNextPowerOfTwo_mono {n m : ℕ} (h : n ≤ m) :
    calcNextPowerOfTwo n ≤ calcNextPowerOfTwo m :=
  Nat.pow_le_pow_right (by norm_num) (Nat.clog_mono_right 2 h)

lemma calcIdealRealFilterWidth_even {n : ℕ} (hn : 1 ≤ n) :
    2 ∣ calcIdealRealFilterWidth n := by
  have h2 : 2 ≤ 2 * n := by omega
  have hpos : 0 < Nat.clog 2 (2 * n) := Nat.clog_pos (by norm_num) h2
  exact dvd_pow_self 2 hpos.ne'

lemma two_le_calcIdealFourierFilterWidth {n : ℕ} (hn : 1 ≤ n) :
    2 ≤ calcIdealFourierFilterWidth n := by
  have h2 : 2 ≤ 2 * n := by omega
  have hpos : 0 < Nat.clog 2 (2 * n) := Nat.clog_pos (by norm_num) h2
  have hr : 2 ≤ calcIdealRealFilterWidth n := by
    unfold calcIdealRealFilterWidth calcNextPowerOfTwo
    calc 2 = 2 ^ 1 := rfl
    _ ≤ 2 ^ Nat.clog 2 (2 * n) := Nat.pow_le_pow_right (by norm_num) hpos
  unfold calcIdealFourierFilterWidth
  omega

lemma calcIdealRealFilterWidth_2 : calcIdealRealFilterWidth 2 = 4 := by
  have h : Nat.clog 2 4 = 2 := by
    have h4 := Nat.clog_pow 2 2 (by norm_num)
    norm_num at h4
    exact h4
  unfold calcIdealRealFilterWidth calcNextPowerOfTwo
  norm_num [h]

lemma calcIdealFourierFilterWidth_2 : calcIdealFourierFilterWidth 2 = 3 := by
  unfold calcIdealFourierFilterWidth
  rw [calcIdealRealFilterWidth_2]

lemma filterRow_ones (n W : ℕ) [NeZero W] (hnW : n ≤ W) (row : Fin n → ℂ) :
    filterRow n W (fun _ => 1) row = row := by
  funext i
  have hlt : (i : ℕ) < W := lt_of_lt_of_le i.isLt hnW
  have hv : ZMod.val (((i : ℕ) : ZMod W)) = (i : ℕ) := ZMod.val_cast_of_lt hlt
  unfold filterRow
  simp only [one_mul]
  have he : (fun k => ZMod.dft (padRow n W row) k) = ZMod.dft (padRow n W row) := rfl
  rw [he, LinearEquiv.symm_apply_apply]
  unfold padRow
  have hcond : ZMod.val (((i : ℕ) : ZMod W)) < n := by rw [hv]; exact i.isLt
  rw [dif_pos hcond]
  exact congrArg row (Fin.ext hv)

lemma filterRow_zero (n W : ℕ) [NeZero W] (kernel : ZMod W → ℂ) :
    filterRow n W kernel (fun _ => 0) = fun _ => 0 := by
  funext i
  unfold filterRow
  have hpad : padRow n W (fun _ : Fin n => (0 : ℂ)) = 0 := by
    funext k
    unfold padRow
    split <;> rfl
  rw [hpad, map_zero]
  have hmul : (fun k : ZMod W => kernel k * (0 : ZMod W → ℂ) k) = 0 := by
    funext k
    simp
  rw [hmul, map_zero]
  rfl

lemma backProject_zero {P : Type} (A n ss : ℕ) (scale : ℂ)
    (wgt : P → Fin A → ℂ) (pos : P → Fin ss × Fin ss → Fin A → Fin n) :
    backProject A n ss scale wgt pos (fun _ _ => 0) = fun _ => 0 := by
  funext p
  unfold backProject
  simp

lemma runPipeline_zero {P : Type} (A n W ss : ℕ) [NeZero W]
    (family : E_FBPFILTER) (kernel : ZMod W → ℂ) (scale : ℂ)
    (wgt : P → Fin A → ℂ) (pos : P → Fin ss × Fin ss → Fin A → Fin n) :
    runPipeline A n W ss family kernel scale wgt pos (fun _ _ => 0) = fun _ => 0 := by
  cases family <;>
    first
    | exact backProject_zero A n ss scale wgt pos
    | · show backProject A n ss scale wgt pos
          (fun a => filterRow n W kernel ((fun _ _ => 0) a)) = fun _ => 0
        simp only [filterRow_zero]
        exact backProject_zero A n ss scale wgt pos

lemma calcIdealRealFilterWidth_128 : calcIdealRealFilterWidth 128 = 256 := by
  have h : Nat.clog 2 256 = 8 := by
    have := Nat.clog_pow 2 8 (by norm_num)
    norm_num at this
    exact this
  unfold calcIdealRealFilterWidth calcNextPowerOfTwo
  norm_num [h]

/-- C7: the ideal width functions are (pure, deterministic) functions of the
detector count alone, and both are non-decreasing in the detector count. -/
theorem filter_widths_nondecreasing (n m : ℕ) (h : n ≤ m) :
    calcIdealRealFilterWidth n ≤ calcIdealRealFilterWidth m ∧
    calcIdealFourierFilterWidth n ≤ calcIdealFourierFilterWidth m := by
  have hr : calcIdealRealFilterWidth n ≤ calcIdealRealFilterWidth m :=
    calcNextPowerOfTwo_mono (by omega)
  refine ⟨hr, ?_⟩
  unfold calcIdealFourierFilterWidth
  omega

/-- C7 witness: monotonicity instantiated at detector counts 4 and 8. -/
theorem filter_widths_nondecreasing_witness :
    4 ≤ 8 ∧ (calcIdealRealFilterWidth 4 ≤ calcIdealRealFilterWidth 8 ∧
    calcIdealFourierFilterWidth 4 ≤ calcIdealFourierFilterWidth 8) :=
  ⟨by norm_num, filter_widths_nondecreasing 4 8 (by norm_num)⟩

/-- C2 counterexample: at detector count 128 the frequency-domain width is
129 = 256 / 2 + 1, not 2 * 256 + 1 = 513: the claimed relation
`idealWidthForFrequencyFilter(n) = 2 * idealWidthForLinearFilter(n) + 1` is
false (even as an order-of-magnitude relation, 129 vs 513), since
real-to-complex packing makes the frequency width about HALF the linear width
plus one, not double it. -/
theorem fourier_width_not_double_real_width :
    calcIdealRealFilterWidth 128 = 256 ∧ calcIdealFourierFilterWidth 128 = 129 ∧
    calcIdealFourierFilterWidth 128 ≠ 2 * calcIdealRealFilterWidth 128 + 1 := by
  have h := calcIdealRealFilterWidth_128
  refine ⟨h, ?_, ?_⟩ <;> simp [calcIdealFourierFilterWidth, h]

/-- C2 (amended): for every detector count `n ≥ 1`, the exact relation is
`idealWidthForLinearFilter(n) = 2 * (idealWidthForFrequencyFilter(n) - 1)`,
equivalently `idealWidthForFrequencyFilter(n) = idealWidthForLinearFilter(n) / 2 + 1`,
reflecting real-to-complex transform packing. -/
theorem real_width_eq_two_mul_fourier_width_sub_one (n : ℕ) (h : 1 ≤ n) :
    calcIdealRealFilterWidth n = 2 * (calcIdealFourierFilterWidth n - 1) ∧
    calcIdealFourierFilterWidth n = calcIdealRealFilterWidth n / 2 + 1 := by
  obtain ⟨k, hk⟩ := calcIdealRealFilterWidth_even h
  unfold calcIdealFourierFilterWidth
  omega

lemma calcIdealFourierFilterWidth_128 : calcIdealFourierFilterWidth 128 = 129 := by
  unfold calcIdealFourierFilterWidth
  rw [calcIdealRealFilterWidth_128]

/-- C1: for every valid detector count, cutoff `D` in `(0, 1]` and projection
count, the generated Ram-Lak kernel is monotonically non-decreasing in
magnitude from frequency 0 up to `D` times Nyquist (bins `i ≤ j` whose
relative frequency stays at most `D`), and every frequency bin strictly above
`D` times Nyquist is exactly zero. -/
theorem ramlak_kernel_monotone_and_zero_beyond_cutoff
    (n A : ℕ) (D : ℚ) (a : Fin A) (i j k : ℕ)
    (hn : 1 ≤ n) (hD0 : 0 < D) (hD1 : D ≤ 1) (hij : i ≤ j)
    (hj : relFreq (calcIdealFourierFilterWidth n) j ≤ D)
    (hk : D < relFreq (calcIdealFourierFilterWidth n) k) :
    |testGenFilterRamLak D A (calcIdealFourierFilterWidth n) a i| ≤
      |testGenFilterRamLak D A (calcIdealFourierFilterWidth n) a j| ∧
    testGenFilterRamLak D A (calcIdealFourierFilterWidth n) a k = 0 := by
  have h2 : 2 ≤ calcIdealFourierFilterWidth n := two_le_calcIdealFourierFilterWidth hn
  have hden : (0 : ℚ) < ((calcIdealFourierFilterWidth n : ℚ)) - 1 := by
    have hc : (2 : ℚ) ≤ ((calcIdealFourierFilterWidth n : ℚ)) := by exact_mod_cast h2
    linarith
  have hmono : relFreq (calcIdealFourierFilterWidth n) i ≤
      relFreq (calcIdealFourierFilterWidth n) j := by
    unfold relFreq
    gcongr
  have hi : relFreq (calcIdealFourierFilterWidth n) i ≤ D := le_trans hmono hj
  have hnn : ∀ m : ℕ, 0 ≤ relFreq (calcIdealFourierFilterWidth n) m := by
    intro m
    unfold relFreq
    exact div_nonneg (by positivity) hden.le
  constructor
  · unfold testGenFilterRamLak genFilterRamLak
    rw [if_pos hi, if_pos hj, abs_of_nonneg (hnn i), abs_of_nonneg (hnn j)]
    exact hmono
  · unfold testGenFilterRamLak genFilterRamLak
    rw [if_neg (not_le.mpr hk)]

/-- C1 witness: detector count 2 (frequency width 3), cutoff `D = 1/2`,
projection count 180, bins 0 ≤ 1 below the cutoff and bin 2 above it. -/
theorem ramlak_kernel_monotone_witness :
    ((1 : ℕ) ≤ 2 ∧ (0 : ℚ) < 1 / 2 ∧ (1 / 2 : ℚ) ≤ 1 ∧ (0 : ℕ) ≤ 1 ∧
      relFreq (calcIdealFourierFilterWidth 2) 1 ≤ 1 / 2 ∧
      (1 / 2 : ℚ) < relFreq (calcIdealFourierFilterWidth 2) 2) ∧
    (|testGenFilterRamLak (1 / 2) 180 (calcIdealFourierFilterWidth 2) 0 0| ≤
      |testGenFilterRamLak (1 / 2) 180 (calcIdealFourierFilterWidth 2) 0 1| ∧
     testGenFilterRamLak (1 / 2) 180 (calcIdealFourierFilterWidth 2) 0 2 = 0) := by
  have hj : relFreq (calcIdealFourierFilterWidth 2) 1 ≤ 1 / 2 := by
    rw [calcIdealFourierFilterWidth_2]
    unfold relFreq
    norm_num
  have hk : (1 / 2 : ℚ) < relFreq (calcIdealFourierFilterWidth 2) 2 := by
    rw [calcIdealFourierFilterWidth_2]
    unfold relFreq
    norm_num
  exact ⟨⟨by norm_num, by norm_num, by norm_num, by norm_num, hj, hk⟩,
    ramlak_kernel_monotone_and_zero_beyond_cutoff 2 180 (1 / 2) 0 0 1 2
      (by norm_num) (by norm_num) (by norm_num) (by norm_num) hj hk⟩

/-- C2 witness: the amended relation instantiated at detector count 128. -/
theorem real_width_eq_two_mul_fourier_width_sub_one_witness :
    (1 : ℕ) ≤ 128 ∧
    (calcIdealRealFilterWidth 128 = 2 * (calcIdealFourierFilterWidth 128 - 1) ∧
    calcIdealFourierFilterWidth 128 = calcIdealRealFilterWidth 128 / 2 + 1) :=
  ⟨by norm_num, real_width_eq_two_mul_fourier_width_sub_one 128 (by norm_num)⟩

/-- C3: for every sinogram and (opaque) geometry, the pipeline with family
`FILTER_NONE` produces the same reconstruction volume as the pipeline with an
all-ones kernel of the effective width, and the `FILTER_NONE` path skips the
filtering stage, back-projecting the raw sinogram. -/
theorem none_family_equals_all_ones_kernel {P : Type} (A n W ss : ℕ) [NeZero W]
    (hnW : n ≤ W) (kernel : ZMod W → ℂ) (scale : ℂ) (wgt : P → Fin A → ℂ)
    (pos : P → Fin ss × Fin ss → Fin A → Fin n) (sino : Fin A → Fin n → ℂ) :
    runPipeline A n W ss .FILTER_NONE kernel scale wgt pos sino =
      runPipeline A n W ss .FILTER_CUSTOM (fun _ => 1) scale wgt pos sino ∧
    runPipeline A n W ss .FILTER_NONE kernel scale wgt pos sino =
      backProject A n ss scale wgt pos sino := by
  constructor
  · show backProject A n ss scale wgt pos sino =
      backProject A n ss scale wgt pos (fun a => filterRow n W (fun _ => 1) (sino a))
    have h : (fun a => filterRow n W (fun _ => (1 : ℂ)) (sino a)) = sino := by
      funext a
      exact filterRow_ones n W hnW (sino a)
    rw [h]
  · rfl

/-- C3 witness: a one-detector, one-angle instance with the trivial geometry,
comparing the `FILTER_NONE` run against the all-ones custom-kernel run. -/
theorem none_family_equals_all_ones_kernel_witness :
    (1 : ℕ) ≤ 1 ∧
    (runPipeline (P := Fin 1) 1 1 1 1 .FILTER_NONE (fun _ => 0) 1 (fun _ _ => 1)
        (fun _ _ _ => 0) (fun _ _ => 1) =
      runPipeline (P := Fin 1) 1 1 1 1 .FILTER_CUSTOM (fun _ => 1) 1 (fun _ _ => 1)
        (fun _ _ _ => 0) (fun _ _ => 1) ∧
     runPipeline (P := Fin 1) 1 1 1 1 .FILTER_NONE (fun _ => 0) 1 (fun _ _ => 1)
        (fun _ _ _ => 0) (fun _ _ => 1) =
      backProject (P := Fin 1) 1 1 1 1 (fun _ _ => 1) (fun _ _ _ => 0)
        (fun _ _ => 1)) :=
  ⟨le_refl 1,
    none_family_equals_all_ones_kernel (P := Fin 1) 1 1 1 1 (le_refl 1)
      (fun _ => 0) 1 (fun _ _ => 1) (fun _ _ _ => 0) (fun _ _ => 1)⟩

/-- C4: filtering preserves zero for every filter kernel (hence for every
filter family), the whole pipeline maps an all-zero sinogram to an all-zero
volume for every family and geometry, and in particular the claimed scenario
(detector count 128, angle count 180, Ram-Lak kernel with cutoff `D = 1`,
supersampling 1) reconstructs an all-zero sinogram to an all-zero volume. -/
theorem filtering_preserves_zero {P Q : Type} (A n W ss : ℕ) [NeZero W]
    (family : E_FBPFILTER) (kernel : ZMod W → ℂ) (scale : ℂ)
    (wgt : P → Fin A → ℂ) (pos : P → Fin ss × Fin ss → Fin A → Fin n)
    (scale2 : ℂ) (wgt2 : Q → Fin 180 → ℂ)
    (pos2 : Q → Fin 1 × Fin 1 → Fin 180 → Fin 128) :
    filterRow n W kernel (fun _ => 0) = (fun _ => 0) ∧
    runPipeline A n W ss family kernel scale wgt pos (fun _ _ => 0) = (fun _ => 0) ∧
    runPipeline 180 128 (calcIdealRealFilterWidth 128) 1 .FILTER_RAMLAK
      (ramLakKernel (calcIdealRealFilterWidth 128) 1) scale2 wgt2 pos2
      (fun _ _ => 0) = fun _ => 0 :=
  ⟨filterRow_zero n W kernel,
   runPipeline_zero A n W ss family kernel scale wgt pos,
   runPipeline_zero 180 128 (calcIdealRealFilterWidth 128) 1 .FILTER_RAMLAK
     (ramLakKernel (calcIdealRealFilterWidth 128) 1) scale2 wgt2 pos2⟩

/-- C4 witness: the general part instantiated on a one-detector, one-angle
geometry with the `FILTER_NONE` family, together with the claimed 128-detector,
180-angle Ram-Lak scenario on the trivial one-pixel geometry. -/
theorem filtering_preserves_zero_witness :
    filterRow 1 1 (fun _ => 0) (fun _ => 0) = (fun _ => 0) ∧
    runPipeline (P := Fin 1) 1 1 1 1 .FILTER_NONE (fun _ => 0) 1 (fun _ _ => 1)
      (fun _ _ _ => 0) (fun _ _ => 0) = (fun _ => 0) ∧
    runPipeline (P := Fin 1) 180 128 (calcIdealRealFilterWidth 128) 1
      .FILTER_RAMLAK (ramLakKernel (calcIdealRealFilterWidth 128) 1) 1
      (fun _ _ => 1) (fun _ _ _ => 0) (fun _ _ => 0) = fun _ => 0 :=
  filtering_preserves_zero (P := Fin 1) (Q := Fin 1) 1 1 1 1 .FILTER_NONE
    (fun _ => 0) 1 (fun _ _ => 1) (fun _ _ _ => 0) 1 (fun _ _ => 1)
    (fun _ _ _ => 0)

/-- C5: for every filter-name token outside the recognized catalog, the
catalog lookup returns the `FILTER_ERROR` sentinel (no silent default),
`initialize(config)` fails with a configuration error, and afterwards `check`
returns false so `run` is not callable. -/
theorem unknown_filter_token_fails_initialization (cfg : Config)
    (h : ∀ p ∈ filterCatalog, p.1 ≠ cfg.filterType) :
    _convertStringToFilter cfg.filterType = .FILTER_ERROR ∧
    (initializeCfg cfg).2 = some .ConfigurationError ∧
    check (initializeCfg cfg).1 = false := by
  have hconv : _convertStringToFilter cfg.filterType = .FILTER_ERROR := by
    unfold _convertStringToFilter
    have hnone :
        filterCatalog.find? (fun p => decide (p.1 = cfg.filterType)) = none := by
      rw [List.find?_eq_none]
      intro p hp
      simpa using h p hp
    rw [hnone]
  refine ⟨hconv, ?_, ?_⟩ <;>
    · simp only [initializeCfg, hconv, reduceIte]
      split_ifs with h1
      · rfl
      · rfl

/-- C5 witness: the scenario token "bogus" with both data bindings present. -/
theorem unknown_filter_token_fails_initialization_witness :
    (∀ p ∈ filterCatalog, p.1 ≠ "bogus") ∧
    (_convertStringToFilter "bogus" = .FILTER_ERROR ∧
     (initializeCfg ⟨"bogus", 0, -1, 1, -1, 1, true, true⟩).2 =
       some .ConfigurationError ∧
     check (initializeCfg ⟨"bogus", 0, -1, 1, -1, 1, true, true⟩).1 = false) :=
  ⟨by decide, unknown_filter_token_fails_initialization
    ⟨"bogus", 0, -1, 1, -1, 1, true, true⟩ (by decide)⟩

/-- C6: a caller-supplied custom kernel whose declared width is smaller than
the ideal frequency-domain width for the detector count is rejected with
`FilterParameterError`: the instance stays unconfigured (no auto-resize, no
proceeding with the undersized kernel) and `check` returns false. -/
theorem undersized_custom_kernel_rejected (detectorCount : ℕ)
    (eFilter : E_FBPFILTER) (ker : List ℚ) (filterWidth : ℕ) (gpuIndex : ℤ)
    (param : ℚ) (hW : filterWidth < calcIdealFourierFilterWidth detectorCount)
    (hF : eFilter ≠ .FILTER_ERROR) :
    initializeDirect detectorCount eFilter (some ker) filterWidth gpuIndex param =
      (uninitState, some .FilterParameterError) ∧
    check (initializeDirect detectorCount eFilter (some ker) filterWidth
      gpuIndex param).1 = false := by
  have hres : initializeDirect detectorCount eFilter (some ker) filterWidth
      gpuIndex param = (uninitState, some .FilterParameterError) := by
    simp only [initializeDirect, if_neg hF, if_pos hW]
  refine ⟨hres, ?_⟩
  rw [hres]
  rfl

/-- C6 witness: detector count 128 (ideal frequency width 129), a custom
kernel declared with width 64. -/
theorem undersized_custom_kernel_rejected_witness :
    (64 < calcIdealFourierFilterWidth 128 ∧
      E_FBPFILTER.FILTER_CUSTOM ≠ E_FBPFILTER.FILTER_ERROR) ∧
    (initializeDirect 128 .FILTER_CUSTOM (some [1]) 64 (-1) (-1) =
      (uninitState, some .FilterParameterError) ∧
     check (initializeDirect 128 .FILTER_CUSTOM (some [1]) 64 (-1) (-1)).1 =
       false) :=
  ⟨⟨by rw [calcIdealFourierFilterWidth_128]; norm_num, by decide⟩,
    undersized_custom_kernel_rejected 128 .FILTER_CUSTOM [1] 64 (-1) (-1)
      (by rw [calcIdealFourierFilterWidth_128]; norm_num) (by decide)⟩

/-- C8: for every successfully initialized instance and every non-negative
iterations argument, `run` performs exactly one pipeline pass, and its output
volume does not depend on the iterations value. -/
theorem run_single_pass_ignores_iterations {P : Type} (A n W ss : ℕ) [NeZero W]
    (s : AlgState) (kernel : ZMod W → ℂ) (scale : ℂ) (wgt : P → Fin A → ℂ)
    (pos : P → Fin ss × Fin ss → Fin A → Fin n) (sino : Fin A → Fin n → ℂ)
    (i j : ℤ) (hs : check s = true) (hi : 0 ≤ i) (hj : 0 ≤ j) :
    run A n W ss s kernel scale wgt pos sino i =
      runPipeline A n W ss s.eFilter kernel scale wgt pos sino ∧
    run A n W ss s kernel scale wgt pos sino i =
      run A n W ss s kernel scale wgt pos sino j :=
  ⟨rfl, rfl⟩

/-- C8 witness: a trivial initialized one-pixel instance run with iteration
arguments 0 and 5. -/
theorem run_single_pass_ignores_iterations_witness :
    (check ramlakState = true ∧ (0 : ℤ) ≤ 0 ∧ (0 : ℤ) ≤ 5) ∧
    (run (P := Fin 1) 1 1 1 1 ramlakState
        (fun _ => 1) 1 (fun _ _ => 1) (fun _ _ _ => 0) (fun _ _ => 1) 0 =
      runPipeline (P := Fin 1) 1 1 1 1 ramlakState.eFilter
        (fun _ => 1) 1 (fun _ _ => 1) (fun _ _ _ => 0) (fun _ _ => 1) ∧
     run (P := Fin 1) 1 1 1 1 ramlakState
        (fun _ => 1) 1 (fun _ _ => 1) (fun _ _ _ => 0) (fun _ _ => 1) 0 =
      run (P := Fin 1) 1 1 1 1 ramlakState
        (fun _ => 1) 1 (fun _ _ => 1) (fun _ _ _ => 0) (fun _ _ => 1) 5) :=
  ⟨⟨rfl, by norm_num, by norm_num⟩,
    run_single_pass_ignores_iterations (P := Fin 1) 1 1 1 1 ramlakState
      (fun _ => 1) 1 (fun _ _ => 1) (fun _ _ _ => 0) (fun _ _ => 1) 0 5
      rfl (by norm_num) (by norm_num)⟩

/-- C9: the device-count query is a total function that never propagates the
driver failure for "no device": it reports the number of available devices,
with 0 as the valid answer for an empty machine, even though the underlying
driver query reports a device error in that case. -/
theorem getGPUCount_total_and_zero_when_no_device {Device : Type}
    (devices : List Device) :
    getGPUCount devices = devices.length ∧
    getGPUCount ([] : List Device) = 0 ∧
    cudaGetDeviceCount ([] : List Device) = .error .DeviceError := by
  refine ⟨?_, rfl, rfl⟩
  unfold getGPUCount cudaGetDeviceCount
  split_ifs with h
  · rw [List.isEmpty_iff] at h
    rw [h]
    rfl
  · rfl

/-- C10: `description` returns the static `type` string of the class in every
state: it is the same for all instances and reads no per-instance state. -/
theorem description_returns_static_type (s t : AlgState) :
    description s = type ∧ description s = description t :=
  ⟨rfl, rfl⟩

end AstraFBP
